import Mathlib

/-!
Shallow embedding of `src/lst_prices.py` (Yahook/lst-prices), a read-only
CLI that reports, per liquid-staking pool, the LST/ZIL exchange rate and
token metadata.  Remote contract calls, the checksum routine of the web3
library and the file system are modelled as explicit oracles (`Env`, `Sys`);
everything the script itself computes is embedded as executable Lean
functions.  Each contract-call site additionally records the name of the
method it invoked, so that statements about which remote reads happen can
be expressed on the call trace.
-/

/-- A parsed JSON value, as produced by `json.load`.  JSON objects keep
their fields in document order; duplicate keys are resolved by `jGet`
(last occurrence wins), matching Python's `dict` built by the `json`
module.  Numbers are modelled as integers, which covers every pool file
this program consumes. -/
inductive JVal where
  | null : JVal
  | bool (b : Bool) : JVal
  | num (n : Int) : JVal
  | str (s : String) : JVal
  | arr (items : List JVal) : JVal
  | obj (fields : List (String × JVal)) : JVal

/-- Python truthiness (`bool(v)`) of a JSON value. -/
def jTruthy : JVal → Bool
  | .null => false
  | .bool b => b
  | .num n => n != 0
  | .str s => s != ""
  | .arr items => !items.isEmpty
  | .obj fields => !fields.isEmpty

/-- Is this JSON value a Python `str`? -/
def JVal.isStr : JVal → Bool
  | .str _ => true
  | _ => false

/-- `dict.get(k)` on a parsed JSON object: the value of the last binding
of `k`, if any (the `json` module keeps the last duplicate). -/
def jGet (fields : List (String × JVal)) (k : String) : Option JVal :=
  fields.foldl (fun acc kv => if kv.1 = k then some kv.2 else acc) none

/-- Python `a or b` where `a` is `item.get(k)` (possibly `None`) and `b`
is a plain value: the left value if truthy, otherwise the right value. -/
def pyOrV (a : Option JVal) (b : JVal) : JVal :=
  match a with
  | some v => if jTruthy v then v else b
  | none => b

/-- Python `a or b` where both operands may be `None`: the left value if
truthy, otherwise the right operand unchanged. -/
def pyOrO (a b : Option JVal) : Option JVal :=
  match a with
  | some v => if jTruthy v then some v else b
  | none => b

/-- One entry of the pool list built by `load_pools_from_json`: the
Python dict `{"name": name, "proxy": proxy}`.  Both values are whatever
JSON values the input file supplied. -/
structure PoolEntry where
  name : JVal
  proxy : JVal

/-- The loop body of `load_pools_from_json`, with `i` the running
`enumerate` index.  Non-dict items are skipped; `name` is
`item.get("name") or item.get("title") or f"Pool {i+1}"`; `proxy` is the
`or`-chain over `proxy`/`delegation`/`delegationProxy`/`address`; the
entry is appended only when `proxy` is truthy. -/
def load_pools_go (i : Nat) : List JVal → List PoolEntry
  | [] => []
  | item :: rest =>
    match item with
    | .obj fields =>
      let name := pyOrV (jGet fields "name")
        (pyOrV (jGet fields "title") (.str ("Pool " ++ toString (i + 1))))
      let proxy := pyOrO (jGet fields "proxy") (pyOrO (jGet fields "delegation")
        (pyOrO (jGet fields "delegationProxy") (jGet fields "address")))
      match proxy with
      | some pv =>
        if jTruthy pv then ⟨name, pv⟩ :: load_pools_go (i + 1) rest
        else load_pools_go (i + 1) rest
      | none => load_pools_go (i + 1) rest
    | _ => load_pools_go (i + 1) rest

/-- `load_pools_from_json` applied to an already-parsed JSON array. -/
def load_pools_from_json (data : List JVal) : List PoolEntry :=
  load_pools_go 0 data

/-- Declarative description of what the resolver does with one indexed
entry: objects in which some proxy key holds a truthy value become a
descriptor (name from the first truthy of `name`/`title`, with the
positional default), everything else is dropped. -/
def resolve_entry (p : Nat × JVal) : Option PoolEntry :=
  match p.2 with
  | .obj fields =>
    match pyOrO (jGet fields "proxy") (pyOrO (jGet fields "delegation")
      (pyOrO (jGet fields "delegationProxy") (jGet fields "address"))) with
    | some pv =>
      if jTruthy pv then
        some ⟨pyOrV (jGet fields "name")
          (pyOrV (jGet fields "title") (.str ("Pool " ++ toString (p.1 + 1)))), pv⟩
      else none
    | none => none
  | _ => none

/-- The resolver as the spec describes it, written declaratively: a
filterMap of `resolve_entry` over the indexed entries, which preserves
the input order by construction. -/
def load_pools_spec (data : List JVal) : List PoolEntry :=
  data.enum.filterMap resolve_entry

/-- The resolver as claim C5 literally words it: an entry is kept as soon
as one of the four proxy keys is present (regardless of truthiness), the
proxy is the first present key's value, and the name is the first present
of `name`/`title`. -/
def load_pools_claimed (data : List JVal) : List PoolEntry :=
  data.enum.filterMap fun p =>
    match p.2 with
    | .obj fields =>
      match (jGet fields "proxy" <|> jGet fields "delegation" <|>
        jGet fields "delegationProxy" <|> jGet fields "address") with
      | some pv =>
        some ⟨(jGet fields "name" <|> jGet fields "title").getD
          (.str ("Pool " ++ toString (p.1 + 1))), pv⟩
      | none => none
    | _ => none

/-- Oracle bundle for everything the script delegates to web3 and the
node: one function per contract method it ever calls, plus
`Web3.to_checksum_address`.  `Except.error` models a raised exception
(reverted call, transport failure, malformed address...).  The bytes32
metadata calls return `some bytes` for a bytes/bytearray value and
`none` for a value of any other type (the `isinstance` guard). -/
structure Env where
  checksum : String → Except String String
  getLST : String → Except String String
  lst : String → Except String String
  getPrice : String → Except String Nat
  symbol : String → Except String String
  name : String → Except String String
  decimals : String → Except String Nat
  symbol_bytes32 : String → Except String (Option (List Nat))
  name_bytes32 : String → Except String (Option (List Nat))

/-- Value of one hexadecimal digit character. -/
def hexDigitVal (c : Char) : Option Nat :=
  if '0' ≤ c ∧ c ≤ '9' then some (c.toNat - 48)
  else if 'a' ≤ c ∧ c ≤ 'f' then some (c.toNat - 87)
  else if 'A' ≤ c ∧ c ≤ 'F' then some (c.toNat - 55)
  else none

/-- Python `int(s, 16)` on the address strings a node returns: an
optional `0x`/`0X` prefix followed by at least one hex digit; `none`
models the `ValueError` raised on anything else. -/
def hexNat (s : String) : Option Nat :=
  let cs := s.toList
  let cs := if cs.take 2 = ['0', 'x'] ∨ cs.take 2 = ['0', 'X'] then cs.drop 2 else cs
  if cs.isEmpty then none
  else cs.foldl (fun acc c =>
    match acc, hexDigitVal c with
    | some a, some d => some (a * 16 + d)
    | _, _ => none) (some 0)

/-- One iteration of the loop in `detect_lst_address`: call `method` on
the proxy; inside the same `try`, check the result is a non-empty string
parsing to a non-zero integer and checksum it.  Any raised exception
(the call itself, `int(addr, 16)`, `to_checksum`) and the zero address
alike yield `none`, i.e. fall through to the next method. -/
def try_detect (env : Env) (call : String → Except String String) (proxy : String) :
    Option String :=
  match call proxy with
  | .error _ => none
  | .ok addr =>
    if addr = "" then none
    else
      match hexNat addr with
      | none => none
      | some v =>
        if v = 0 then none
        else
          match env.checksum addr with
          | .ok c => some c
          | .error _ => none

/-- `detect_lst_address`: try `getLST()`, then `lst()`; the first
non-zero address wins, checksummed.  The second component is the list of
contract methods actually invoked. -/
def detect_lst_address (env : Env) (proxy : String) : Option String × List String :=
  match try_detect env env.getLST proxy with
  | some a => (some a, ["getLST"])
  | none => (try_detect env env.lst proxy, ["getLST", "lst"])

/-- Number of decimal digits of `n` (`len(str(n))` for `n : Nat`). -/
def decDigits (n : Nat) : Nat :=
  if n < 10 then 1 else decDigits (n / 10) + 1

/-- Factor `n > 0` as `c * 10^k` with `c` not divisible by 10; returns
`(c, k)`. -/
def stripTens (n : Nat) : Nat × Nat :=
  if n % 10 = 0 ∧ n ≠ 0 then
    let p := stripTens (n / 10)
    (p.1, p.2 + 1)
  else (n, 0)

/-- `round(a / b)` to the nearest integer, ties to even (`b > 0`). -/
def roundHalfEvenDiv (a b : Nat) : Nat :=
  let q := a / b
  let r := a % b
  if 2 * r < b then q
  else if b < 2 * r then q + 1
  else if q % 2 = 0 then q else q + 1

/-- `Context._fix` at precision 50: a coefficient/exponent pair whose
coefficient exceeds 50 digits is rounded (half-even) to 50 significant
digits, raising the exponent; a rounding carry (`10^50`) is renormalised
to `10^49` with one more exponent step. -/
def decFix50 (c : Nat) (e : Int) : Nat × Int :=
  let L := decDigits c
  if L ≤ 50 then (c, e)
  else
    let d := L - 50
    let q := roundHalfEvenDiv c (10 ^ d)
    if decDigits q ≤ 50 then (q, e + d) else (q / 10, e + d + 1)

/-- `Decimal(raw) / Decimal(10**18)` under `getcontext().prec = 50`: the
exact quotient `raw * 10^(-18)` expressed with trailing zeros stripped
down to the ideal exponent 0, then rounded to 50 significant digits when
necessary.  The result is the internal (coefficient, exponent) pair of
the Python `Decimal`. -/
def decimalDivPow18 (raw : Nat) : Nat × Int :=
  if raw = 0 then (0, 0)
  else
    let p := stripTens raw
    if 18 ≤ p.2 then decFix50 (p.1 * 10 ^ (p.2 - 18)) 0
    else decFix50 p.1 ((p.2 : Int) - 18)

/-- `str` on a non-negative `Decimal` with coefficient `c` and exponent
`e`, following the algorithm of `Decimal.__str__`: plain positional
notation while the exponent is non-positive and the adjusted exponent is
at least -6, scientific `E` notation otherwise. -/
def decimalStr (c : Nat) (e : Int) : String :=
  let ds := toString c
  let L : Int := ds.length
  let leftdigits := e + L
  let dotplace : Int := if e ≤ 0 ∧ -6 < leftdigits then leftdigits else 1
  let body :=
    if dotplace ≤ 0 then
      "0." ++ String.mk (List.replicate (-dotplace).toNat '0') ++ ds
    else if L ≤ dotplace then
      ds ++ String.mk (List.replicate (dotplace - L).toNat '0')
    else
      String.mk (ds.toList.take dotplace.toNat) ++ "." ++
        String.mk (ds.toList.drop dotplace.toNat)
  if leftdigits = dotplace then body
  else
    body ++ "E" ++ (if 0 ≤ leftdigits - dotplace then "+" else "") ++
      toString (leftdigits - dotplace)

/-- `n` printed in decimal, left-padded with zeros to width `w`. -/
def zeroPad (w : Nat) (n : Nat) : String :=
  let s := toString n
  String.mk (List.replicate (w - s.length) '0') ++ s

/-- `f"{d:.6f}"` on a non-negative `Decimal` `(c, e)`: the value rounded
half-even to six fractional digits and printed in fixed-point form. -/
def format6f (c : Nat) (e : Int) : String :=
  let n6 : Nat :=
    if 0 ≤ e + 6 then c * 10 ^ (e + 6).toNat
    else roundHalfEvenDiv c (10 ^ (-(e + 6)).toNat)
  toString (n6 / 1000000) ++ "." ++ zeroPad 6 (n6 % 1000000)

/-- Interpret a list of decimal digit characters, `none` if empty or if
any character is not a digit. -/
def digitsVal (l : List Char) : Option Nat :=
  if l.isEmpty then none
  else l.foldl (fun acc c =>
    match acc with
    | some a => if '0' ≤ c ∧ c ≤ '9' then some (a * 10 + (c.toNat - 48)) else none
    | none => none) (some 0)

/-- `Decimal(s)` on the literals this program itself produces with
`str(rate)`: digits, an optional fraction, an optional `E`-exponent.
Returns the (coefficient, exponent) pair; `none` models the
`InvalidOperation` raised on a malformed literal. -/
def parsePyDecimal (s : String) : Option (Nat × Int) :=
  let mant : List Char → Option (Nat × Int) := fun m =>
    match m.splitOn '.' with
    | [ip] => (digitsVal ip).map (fun c => (c, 0))
    | [ip, fp] =>
      if fp.isEmpty then none
      else (digitsVal (ip ++ fp)).map (fun c => (c, -(fp.length : Int)))
    | _ => none
  match s.toList.splitOn 'E' with
  | [m] => mant m
  | [m, ex] => do
    let base ← mant m
    let expPart : Option Int :=
      match ex with
      | '+' :: ds => (digitsVal ds).map (fun n => (n : Int))
      | '-' :: ds => (digitsVal ds).map (fun n => -(n : Int))
      | ds => (digitsVal ds).map (fun n => (n : Int))
    let ev ← expPart
    some (base.1, base.2 + ev)
  | _ => none

/-- `fetch_price`: call `getPrice()` and divide by `10^18` as a
`Decimal`; a raised exception degrades to `none`.  The second component
is the contract-call trace. -/
def fetch_price (env : Env) (proxy : String) : Option (Nat × Int) × List String :=
  match env.getPrice proxy with
  | .ok raw => (some (decimalDivPow18 raw), ["getPrice"])
  | .error _ => (none, ["getPrice"])

/-- The UTF-8 replacement character U+FFFD. -/
def replChar : Char := Char.ofNat 0xFFFD

/-- Is `b` a UTF-8 continuation byte (`0x80..0xBF`)? -/
def contByte (b : Nat) : Bool := 0x80 ≤ b ∧ b < 0xC0

/-- Valid range of the first continuation byte after lead byte `b` of a
three-byte sequence (excludes overlong forms and surrogates). -/
def cont3ok (b c1 : Nat) : Bool :=
  if b = 0xE0 then 0xA0 ≤ c1 ∧ c1 < 0xC0
  else if b = 0xED then 0x80 ≤ c1 ∧ c1 < 0xA0
  else contByte c1

/-- Valid range of the first continuation byte after lead byte `b` of a
four-byte sequence (excludes overlong forms and values above U+10FFFF). -/
def cont4ok (b c1 : Nat) : Bool :=
  if b = 0xF0 then 0x90 ≤ c1 ∧ c1 < 0xC0
  else if b = 0xF4 then 0x80 ≤ c1 ∧ c1 < 0x90
  else contByte c1

/-- `bytes.decode("utf-8", errors="replace")`: decode a byte list,
emitting U+FFFD for each maximal invalid subpart. -/
def utf8DecodeReplace : List Nat → List Char
  | [] => []
  | b :: rest =>
    if b < 0x80 then Char.ofNat b :: utf8DecodeReplace rest
    else if 0xC2 ≤ b ∧ b ≤ 0xDF then
      match rest with
      | [] => [replChar]
      | c1 :: rest1 =>
        if contByte c1 then
          Char.ofNat ((b - 0xC0) * 0x40 + (c1 - 0x80)) :: utf8DecodeReplace rest1
        else replChar :: utf8DecodeReplace (c1 :: rest1)
    else if 0xE0 ≤ b ∧ b ≤ 0xEF then
      match rest with
      | [] => [replChar]
      | c1 :: rest1 =>
        if cont3ok b c1 then
          match rest1 with
          | [] => [replChar]
          | c2 :: rest2 =>
            if contByte c2 then
              Char.ofNat ((b - 0xE0) * 0x1000 + (c1 - 0x80) * 0x40 + (c2 - 0x80)) ::
                utf8DecodeReplace rest2
            else replChar :: utf8DecodeReplace (c2 :: rest2)
        else replChar :: utf8DecodeReplace (c1 :: rest1)
    else if 0xF0 ≤ b ∧ b ≤ 0xF4 then
      match rest with
      | [] => [replChar]
      | c1 :: rest1 =>
        if cont4ok b c1 then
          match rest1 with
          | [] => [replChar]
          | c2 :: rest2 =>
            if contByte c2 then
              match rest2 with
              | [] => [replChar]
              | c3 :: rest3 =>
                if contByte c3 then
                  Char.ofNat ((b - 0xF0) * 0x40000 + (c1 - 0x80) * 0x1000 +
                    (c2 - 0x80) * 0x40 + (c3 - 0x80)) :: utf8DecodeReplace rest3
                else replChar :: utf8DecodeReplace (c3 :: rest3)
            else replChar :: utf8DecodeReplace (c2 :: rest2)
        else replChar :: utf8DecodeReplace (c1 :: rest1)
    else replChar :: utf8DecodeReplace rest

/-- `decode_bytes32`: strip trailing zero bytes, decode as UTF-8 with
replacement.  (The `try`/`except` around it in the source is dead: this
computation raises nothing.) -/
def decode_bytes32 (b : List Nat) : String :=
  String.mk (utf8DecodeReplace ((b.reverse.dropWhile (· = 0)).reverse))

/-- The token-metadata record returned by `fetch_token_meta`. -/
structure TokenMeta where
  symbol : String
  name : String
  decimals : Nat
deriving DecidableEq, Repr

/-- `fetch_token_meta`: read `symbol`/`name`/`decimals` under the string
ABI, each call independently fault-tolerant; for a field whose call
raised (`none`), retry under the bytes32 ABI, keeping the decoded value
only when the returned object is bytes; finally apply the defaults
(`symbol = "LST"` when still falsy, `decimals = 18` when still absent,
`name = ""` when falsy).  Second component: contract-call trace. -/
def fetch_token_meta (env : Env) (token : String) : TokenMeta × List String :=
  let symbol0 : Option String :=
    match env.symbol token with
    | .ok s => some s
    | .error _ => none
  let name0 : Option String :=
    match env.name token with
    | .ok n => some n
    | .error _ => none
  let decimals0 : Option Nat :=
    match env.decimals token with
    | .ok d => some d
    | .error _ => none
  let retry := symbol0.isNone ∨ name0.isNone
  let symbol1 : Option String :=
    if symbol0.isNone then
      match env.symbol_bytes32 token with
      | .ok (some bs) => some (decode_bytes32 bs)
      | .ok none => none
      | .error _ => none
    else symbol0
  let name1 : Option String :=
    if name0.isNone then
      match env.name_bytes32 token with
      | .ok (some bs) => some (decode_bytes32 bs)
      | .ok none => none
      | .error _ => none
    else name0
  let tr2 : List String :=
    if retry then
      (if symbol0.isNone then ["symbol_bytes32"] else []) ++
        (if name0.isNone then ["name_bytes32"] else [])
    else []
  let symbol2 := match symbol1 with
    | some s => if s = "" then "LST" else s
    | none => "LST"
  let name2 := match name1 with
    | some n => n
    | none => ""
  let decimals2 := match decimals0 with
    | some d => d
    | none => 18
  (⟨symbol2, name2, decimals2⟩, ["symbol", "name", "decimals"] ++ tr2)

/-- A probe-result record, i.e. the Python dict a pool produces.  A
field of value `none` is absent from the dict; `lst = some none` is the
JSON `null` the no-LST record carries. -/
structure ProbeResult where
  pool : String
  proxy : String
  lst : Option (Option String) := none
  type : Option String := none
  symbol : Option String := none
  decimals : Option Nat := none
  rate_zil_per_lst : Option String := none
  error : Option String := none
deriving DecidableEq, Repr

/-- `fetch_one`: checksum the proxy (uncaught on failure — the
`Except.error` propagates to the caller's handler), detect the LST,
and either report `No LST detected`, or read price and metadata and
report the rate or `getPrice failed`.  Second component: contract-call
trace. -/
def fetch_one (env : Env) (pool_name proxy_addr : String) :
    Except String ProbeResult × List String :=
  match env.checksum proxy_addr with
  | .error e => (.error e, [])
  | .ok proxy_cs =>
    match detect_lst_address env proxy_cs with
    | (none, tr1) =>
      (.ok { pool := pool_name, proxy := proxy_cs, lst := some none,
             type := some "non-liquid-or-unknown",
             error := some "No LST detected" }, tr1)
    | (some lst_addr, tr1) =>
      let pr := fetch_price env proxy_cs
      let mr := fetch_token_meta env lst_addr
      match pr.1 with
      | none =>
        (.ok { pool := pool_name, proxy := proxy_cs, lst := some (some lst_addr),
               symbol := some mr.1.symbol, decimals := some mr.1.decimals,
               error := some "getPrice failed" }, tr1 ++ pr.2 ++ mr.2)
      | some d =>
        (.ok { pool := pool_name, proxy := proxy_cs, lst := some (some lst_addr),
               symbol := some mr.1.symbol, decimals := some mr.1.decimals,
               rate_zil_per_lst := some (decimalStr d.1 d.2) }, tr1 ++ pr.2 ++ mr.2)

/-- A pool descriptor as consumed by the main loop (`p["name"]`,
`p["proxy"]`), both strings as in the spec's data model. -/
structure Pool where
  name : String
  proxy : String
deriving DecidableEq, Repr

/-- The body of the main result loop for one pool: `fetch_one`, with any
propagated exception caught and turned into the
`{"pool": ..., "proxy": ..., "error": str(e)}` record carrying the
original un-normalised proxy string. -/
def process_pool (env : Env) (p : Pool) : ProbeResult :=
  match (fetch_one env p.name p.proxy).1 with
  | .ok r => r
  | .error e => { pool := p.name, proxy := p.proxy, error := some e }

/-- The main result loop over the resolved pools. -/
def processPools (env : Env) (pools : List Pool) : List ProbeResult :=
  pools.map (process_pool env)

/-- Python `str.ljust`: pad with spaces on the right up to width `w`
(no-op when already at least that wide, never truncates). -/
def ljust (s : String) (w : Nat) : String :=
  s ++ String.mk (List.replicate (w - s.length) ' ')

/-- The rate cell of a table row: `f"{Decimal(rate):.6f}"` when a rate
string is present, `"N/A"` otherwise.  (An unparseable literal would
raise in Python; the program only ever feeds it its own `str(rate)`
output, so that branch is unreachable and mapped to `"N/A"`.) -/
def format_rate : Option String → String
  | none => "N/A"
  | some s =>
    match parsePyDecimal s with
    | some d => format6f d.1 d.2
    | none => "N/A"

/-- One data row of the table: the error message in the rate column when
the record has an error and no rate, the formatted rate otherwise. -/
def table_row (name_w sym_w : Nat) (r : ProbeResult) : String :=
  if r.error.isSome ∧ r.rate_zil_per_lst.isNone then
    ljust r.pool name_w ++ "  " ++ ljust (r.symbol.getD "?") sym_w ++ "  " ++
      ljust (r.error.getD "ERROR") 24 ++ "  " ++ r.proxy
  else
    ljust r.pool name_w ++ "  " ++ ljust (r.symbol.getD "?") sym_w ++ "  " ++
      ljust (format_rate r.rate_zil_per_lst) 24 ++ "  " ++ r.proxy

/-- `print_table`: the list of strings passed to `print`, given the
timestamp text.  Column widths are the maximum content width with fixed
minimums (4 for the pool column, 6 for the symbol column). -/
def print_table (now : String) (results : List ProbeResult) : List String :=
  let name_w := ((results.map (fun (r : ProbeResult) => r.pool.length)) ++ [4]).foldl max 0
  let sym_w :=
    ((results.map (fun (r : ProbeResult) => (r.symbol.getD "?").length)) ++ [6]).foldl max 0
  ("\nTime: " ++ now ++ "\n") ::
    (ljust "Pool" name_w ++ "  " ++ ljust "Symbol" sym_w ++ "  " ++
      ljust "Rate (1 LST ≃ X ZIL)" 24 ++ "  Proxy") ::
    String.mk (List.replicate (name_w + 2 + sym_w + 2 + 24 + 2 + 42) '-') ::
    results.map (table_row name_w sym_w)

/-- `json.dumps` escaping of one character with `ensure_ascii=False`:
only the quote, the backslash and control characters are escaped;
everything else — in particular every non-ASCII character — is emitted
literally. -/
def pyJsonEscapeChar (c : Char) : List Char :=
  if c = '"' then ['\\', '"']
  else if c = '\\' then ['\\', '\\']
  else if c = '\n' then ['\\', 'n']
  else if c = '\t' then ['\\', 't']
  else if c = '\r' then ['\\', 'r']
  else if c = Char.ofNat 8 then ['\\', 'b']
  else if c = Char.ofNat 12 then ['\\', 'f']
  else if c.toNat < 0x20 then
    ['\\', 'u', '0', '0', Nat.digitChar (c.toNat / 16), Nat.digitChar (c.toNat % 16)]
  else [c]

/-- `json.dumps` escaping of a string body (`ensure_ascii=False`). -/
def pyJsonEscape (s : String) : String :=
  String.mk (s.toList.flatMap pyJsonEscapeChar)

mutual

/-- `json.dumps(v, ensure_ascii=False, indent=2)`, at indentation depth
`ind` spaces (mutually with the rendering of array items and object
fields, each prefixed by its indentation). -/
def dumpJVal (ind : Nat) : JVal → String
  | .null => "null"
  | .bool true => "true"
  | .bool false => "false"
  | .num n => toString n
  | .str s => "\"" ++ pyJsonEscape s ++ "\""
  | .arr [] => "[]"
  | .arr (x :: xs) =>
    "[\n" ++ String.intercalate ",\n" (dumpItems (ind + 2) (x :: xs)) ++
      "\n" ++ String.mk (List.replicate ind ' ') ++ "]"
  | .obj [] => "\x7b\x7d"
  | .obj (f :: fs) =>
    "\x7b\n" ++ String.intercalate ",\n" (dumpFields (ind + 2) (f :: fs)) ++
      "\n" ++ String.mk (List.replicate ind ' ') ++ "\x7d"

/-- The rendered items of a JSON array, one string per item. -/
def dumpItems (ind : Nat) : List JVal → List String
  | [] => []
  | v :: vs =>
    (String.mk (List.replicate ind ' ') ++ dumpJVal ind v) :: dumpItems ind vs

/-- The rendered fields of a JSON object, one string per field. -/
def dumpFields (ind : Nat) : List (String × JVal) → List String
  | [] => []
  | (k, v) :: fs =>
    (String.mk (List.replicate ind ' ') ++ "\"" ++ pyJsonEscape k ++ "\": " ++
      dumpJVal ind v) :: dumpFields ind fs

end

/-- A probe-result dict as a JSON value: present fields in the insertion
order of the source (`pool`, `proxy`, `lst`, `type`, `symbol`,
`decimals`, `rate_zil_per_lst`, `error`), absent fields omitted. -/
def resultToJVal (r : ProbeResult) : JVal :=
  .obj ([("pool", JVal.str r.pool), ("proxy", JVal.str r.proxy)] ++
    (match r.lst with
     | none => []
     | some none => [("lst", JVal.null)]
     | some (some a) => [("lst", JVal.str a)]) ++
    (match r.type with
     | none => []
     | some t => [("type", JVal.str t)]) ++
    (match r.symbol with
     | none => []
     | some s => [("symbol", JVal.str s)]) ++
    (match r.decimals with
     | none => []
     | some d => [("decimals", JVal.num d)]) ++
    (match r.rate_zil_per_lst with
     | none => []
     | some s => [("rate_zil_per_lst", JVal.str s)]) ++
    (match r.error with
     | none => []
     | some e => [("error", JVal.str e)]))

/-- The JSON-mode output: `json.dumps(results, ensure_ascii=False,
indent=2)`. -/
def json_output (results : List ProbeResult) : String :=
  dumpJVal 0 (.arr (results.map resultToJVal))

/-- The parsed command line: `--pools-json`, the `--json` flag, and the
positional proxy addresses. -/
structure Args where
  pools_json : Option String
  json : Bool
  proxies : List String

/-- The ambient world `main` consults before the result loop: whether
`w3.is_connected()` holds, and the file system.  `fs p = none` means no
readable file at `p`; `some (.error e)` a file whose open/parse raises;
`some (.ok v)` a file parsing to the JSON value `v`. -/
structure Sys where
  rpc_connected : Bool
  fs : String → Option (Except String JVal)

/-- `load_pools_from_json` on an arbitrary parsed JSON document: the
function iterates `data` with `enumerate`, so an array yields its
entries, a dict yields its keys and a string its characters (both
strings, hence skipped by the `isinstance` check, giving an empty pool
list), and any non-iterable value raises a `TypeError`. -/
def load_pools_any : JVal → Except String (List PoolEntry)
  | .arr items => .ok (load_pools_from_json items)
  | .obj _fields => .ok []
  | .str _s => .ok []
  | _ => .error "TypeError: object is not iterable"

/-- The fixed search path of `autodiscover_pools`. -/
def candidatePaths : List String :=
  ["pools.json", "public/pools.json", "src/data/pools.json",
   "src/shared/constants/pools.json"]

/-- The candidate loop of `autodiscover_pools`: the first existing file
whose read and load both succeed wins (exceptions are swallowed and the
next candidate is tried); no candidate gives the empty list. -/
def autodiscover_go (fs : String → Option (Except String JVal)) :
    List String → List PoolEntry
  | [] => []
  | p :: ps =>
    match fs p with
    | none => autodiscover_go fs ps
    | some (.error _) => autodiscover_go fs ps
    | some (.ok v) =>
      match load_pools_any v with
      | .error _ => autodiscover_go fs ps
      | .ok pools => pools

/-- `autodiscover_pools`. -/
def autodiscover_pools (fs : String → Option (Except String JVal)) : List PoolEntry :=
  autodiscover_go fs candidatePaths

/-- How a run of `main` terminates.  `exited c` is an explicit
`sys.exit(c)`; `uncaught e` an exception escaping `main` (CPython then
terminates the process with status 1); `completed pools` a run that
resolved the given pools, ran the result loop (whose body catches every
exception) and rendered its output without raising, hence ends with
status 0. -/
inductive MainOutcome where
  | exited (code : Nat) : MainOutcome
  | uncaught (msg : String) : MainOutcome
  | completed (pools : List PoolEntry) : MainOutcome

/-- The rendering phase on the resolved pools.  Every emitted record's
`pool` field is the entry's name value verbatim: `fetch_one` and the
loop's exception handler both store `p["name"]` unchanged and never
inspect it.  In table mode `print_table` computes
`len(r.get("pool",""))` and `pool.ljust(...)` on that value, which
raises an uncaught `TypeError`/`AttributeError` as soon as some resolved
name is not a string (a truthy non-string name survives the resolver);
`json.dumps` serialises any parsed-JSON value and never raises.  So a
run past pool resolution raises exactly when printing a table over a
pool list containing a non-string name. -/
def renderOutcome (json_mode : Bool) (pools : List PoolEntry) : MainOutcome :=
  if !json_mode && pools.any (fun p => ! p.name.isStr) then
    .uncaught "TypeError: pool name is not a string"
  else .completed pools

/-- The control flow of `main`: RPC connectivity check (`sys.exit(2)`),
the pools file / positional proxies / autodiscovery cascade
(`sys.exit(1)` when the fallback finds nothing; an unreadable or
malformed explicit pools file raises out of `main`), then the result
loop and the rendering phase. -/
def mainOutcome (sys : Sys) (args : Args) : MainOutcome :=
  if !sys.rpc_connected then .exited 2
  else
    match args.pools_json with
    | some path =>
      match sys.fs path with
      | none => .uncaught ("FileNotFoundError: " ++ path)
      | some (.error e) => .uncaught e
      | some (.ok v) =>
        match load_pools_any v with
        | .error e => .uncaught e
        | .ok pools => renderOutcome args.json pools
    | none =>
      if !args.proxies.isEmpty then
        renderOutcome args.json (args.proxies.enum.map fun p =>
          ⟨.str ("Pool " ++ toString (p.1 + 1)), .str p.2⟩)
      else
        match autodiscover_pools sys.fs with
        | [] => .exited 1
        | q :: qs => renderOutcome args.json (q :: qs)

/-- The process exit status of an outcome (CPython exits with status 1
on an unhandled exception, 0 on normal return). -/
def exitCode : MainOutcome → Nat
  | .exited c => c
  | .uncaught _ => 1
  | .completed _ => 0

/-! ### Concrete worlds used to instantiate the theorems -/

/-- A fully healthy world: `getLST()` answers `0x1`, the price is
`1.5 * 10^18`, metadata reads succeed under the string ABI. -/
def okEnv : Env where
  checksum := fun s => .ok s
  getLST := fun _ => .ok "0x1"
  lst := fun _ => .error "no method lst"
  getPrice := fun _ => .ok 1500000000000000000
  symbol := fun _ => .ok "stZIL"
  name := fun _ => .ok "Staked ZIL"
  decimals := fun _ => .ok 18
  symbol_bytes32 := fun _ => .error "revert"
  name_bytes32 := fun _ => .error "revert"

/-- A proxy exposing neither detection method: `getLST()` reverts and
`lst()` answers the zero address. -/
def deadEnv : Env where
  checksum := fun s => .ok s
  getLST := fun _ => .error "execution reverted"
  lst := fun _ => .ok "0x0000000000000000000000000000000000000000"
  getPrice := fun _ => .ok 7
  symbol := fun _ => .ok "X"
  name := fun _ => .ok "X"
  decimals := fun _ => .ok 18
  symbol_bytes32 := fun _ => .error "revert"
  name_bytes32 := fun _ => .error "revert"

/-- Detection succeeds but `getPrice()` raises. -/
def noPriceEnv : Env where
  checksum := fun s => .ok s
  getLST := fun _ => .ok "0x1"
  lst := fun _ => .error "no method lst"
  getPrice := fun _ => .error "execution reverted"
  symbol := fun _ => .ok "stZIL"
  name := fun _ => .ok "Staked ZIL"
  decimals := fun _ => .ok 18
  symbol_bytes32 := fun _ => .error "revert"
  name_bytes32 := fun _ => .error "revert"

/-- The bytes32 padding of `b"wZIL"` to 32 bytes. -/
def wzilBytes : List Nat := [0x77, 0x5A, 0x49, 0x4C] ++ List.replicate 28 0

/-- A token whose string-ABI metadata calls raise but whose bytes32-ABI
calls answer `b"wZIL\x00..."`. -/
def b32Env : Env where
  checksum := fun s => .ok s
  getLST := fun _ => .ok "0x1"
  lst := fun _ => .error "no method lst"
  getPrice := fun _ => .ok 1500000000000000000
  symbol := fun _ => .error "could not decode string"
  name := fun _ => .error "could not decode string"
  decimals := fun _ => .error "execution reverted"
  symbol_bytes32 := fun _ => .ok (some wzilBytes)
  name_bytes32 := fun _ => .ok (some wzilBytes)

/-- A token whose string-ABI `symbol()` succeeds with the empty string
while the bytes32 ABI would answer `b"wZIL\x00..."`. -/
def emptySymEnv : Env where
  checksum := fun s => .ok s
  getLST := fun _ => .ok "0x1"
  lst := fun _ => .error "no method lst"
  getPrice := fun _ => .ok 1500000000000000000
  symbol := fun _ => .ok ""
  name := fun _ => .ok "Wrapped ZIL"
  decimals := fun _ => .ok 12
  symbol_bytes32 := fun _ => .ok (some wzilBytes)
  name_bytes32 := fun _ => .ok (some wzilBytes)

/-- A world in which `Web3.to_checksum_address` raises on every input
(e.g. the pools file held a malformed address). -/
def badChecksumEnv : Env where
  checksum := fun _ => .error "could not checksum"
  getLST := fun _ => .ok "0x1"
  lst := fun _ => .error "no method lst"
  getPrice := fun _ => .ok 7
  symbol := fun _ => .ok "X"
  name := fun _ => .ok "X"
  decimals := fun _ => .ok 18
  symbol_bytes32 := fun _ => .error "revert"
  name_bytes32 := fun _ => .error "revert"

/-- RPC endpoint down. -/
def sysDown : Sys where
  rpc_connected := false
  fs := fun _ => none

/-- RPC up, no file anywhere. -/
def sysNoFile : Sys where
  rpc_connected := true
  fs := fun _ => none

/-- RPC up, every file read raises a parse error. -/
def sysBadFile : Sys where
  rpc_connected := true
  fs := fun _ => some (.error "json.decoder.JSONDecodeError")

/-- RPC up, every path holds a file parsing to the empty JSON array. -/
def sysEmptyArr : Sys where
  rpc_connected := true
  fs := fun _ => some (.ok (.arr []))

/-- RPC up, every path holds a file whose single entry has the truthy
non-string name `5`. -/
def sysBadName : Sys where
  rpc_connected := true
  fs := fun _ => some (.ok (.arr [.obj [("name", .num 5), ("proxy", .str "0x1")]]))

/-- A command line passing an explicit pools file. -/
def argsFile : Args where
  pools_json := some "pools.json"
  json := true
  proxies := []

/-- A command line passing an explicit pools file, table output. -/
def argsFileTable : Args where
  pools_json := some "pools.json"
  json := false
  proxies := []

/-- A command line passing neither a pools file nor proxies. -/
def argsNone : Args where
  pools_json := none
  json := false
  proxies := []

/-! ## Theorems -/

/-- Evaluation of the embedded Decimal division at the spec's sample
price (well-founded recursion, hence evaluated by `simp` rather than by
kernel reduction). -/
theorem decimalDivPow18_sample : decimalDivPow18 1500000000000000000 = (15, -1) := by
  simp [decimalDivPow18, stripTens, decFix50, decDigits]

/-- Rendering of the sample rate as a Decimal literal. -/
theorem decimalStr_sample : decimalStr 15 (-1) = "1.5" := rfl

/-- Rendering of the sample rate in the table. -/
theorem format_rate_sample : format_rate (some "1.5") = "1.500000" := rfl

/-- The imperative loop of `load_pools_from_json` agrees with the
declarative filterMap description, for any starting index. -/
theorem load_pools_go_eq_filterMap (data : List JVal) :
    ∀ i, load_pools_go i data = (data.enumFrom i).filterMap resolve_entry := by
  induction data with
  | nil => intro i; rfl
  | cons item rest ih =>
    intro i
    show load_pools_go i (item :: rest) =
      List.filterMap resolve_entry ((i, item) :: rest.enumFrom (i + 1))
    rw [List.filterMap_cons]
    cases item with
    | obj fields =>
      simp only [load_pools_go, resolve_entry]
      cases hp : pyOrO (jGet fields "proxy") (pyOrO (jGet fields "delegation")
        (pyOrO (jGet fields "delegationProxy") (jGet fields "address"))) with
      | none => simpa using ih (i + 1)
      | some pv =>
        by_cases ht : jTruthy pv = true
        · simpa [ht] using ih (i + 1)
        · simp only [Bool.not_eq_true] at ht
          simpa [ht] using ih (i + 1)
    | null => simpa [load_pools_go, resolve_entry] using ih (i + 1)
    | bool b => simpa [load_pools_go, resolve_entry] using ih (i + 1)
    | num n => simpa [load_pools_go, resolve_entry] using ih (i + 1)
    | str s => simpa [load_pools_go, resolve_entry] using ih (i + 1)
    | arr xs => simpa [load_pools_go, resolve_entry] using ih (i + 1)

/-- C5 (corrected). For every valid pools-file JSON array the resolver
outputs descriptors in input order, skipping entries that are not
objects and entries in which none of `proxy`/`delegation`/
`delegationProxy`/`address` holds a truthy value; the name is the first
truthy of `name`/`title` with default `"Pool {index+1}"`, and the proxy
is the first truthy of the four keys — i.e. the loop agrees with the
order-preserving declarative resolver `load_pools_spec`. -/
theorem C5_resolver_matches_spec (data : List JVal) :
    load_pools_from_json data = load_pools_spec data := by
  simpa [load_pools_from_json, load_pools_spec, List.enum] using
    load_pools_go_eq_filterMap data 0

/-- C5 counterexample. On the array `[{"proxy": ""}]` the code skips the
entry (the `proxy` key is present but its value is falsy), while the
claim's reading — keep any object having one of the four keys and use
the first *present* value — would produce one descriptor. -/
theorem C5_counterexample :
    load_pools_from_json [JVal.obj [("proxy", JVal.str "")]] ≠
      load_pools_claimed [JVal.obj [("proxy", JVal.str "")]] := by
  intro h
  have h0 : (load_pools_from_json [JVal.obj [("proxy", JVal.str "")]]).length = 0 := rfl
  have h1 : (load_pools_claimed [JVal.obj [("proxy", JVal.str "")]]).length = 1 := rfl
  rw [h, h1] at h0
  exact Nat.one_ne_zero h0

/-- `decDigits` is at least one. -/
theorem decDigits_pos (n : Nat) : 1 ≤ decDigits n := by
  rw [decDigits]
  split <;> omega

/-- `decDigits n ≤ d + 1` exactly when `n < 10 ^ (d + 1)`. -/
theorem decDigits_le_iff (d : Nat) : ∀ n, decDigits n ≤ d + 1 ↔ n < 10 ^ (d + 1) := by
  induction d with
  | zero =>
    intro n
    rw [decDigits]
    constructor
    · intro h
      by_contra hn
      rw [if_neg (by omega)] at h
      have := decDigits_pos (n / 10)
      omega
    · intro h
      rw [if_pos (by simpa using h)]
  | succ d ih =>
    intro n
    by_cases hn : n < 10
    · have h10 : n < 10 ^ (d + 2) := by
        calc n < 10 := hn
        _ ≤ 10 ^ (d + 2) := Nat.le_self_pow (by omega) 10
      rw [decDigits, if_pos hn]
      exact iff_of_true (by omega) h10
    · rw [decDigits, if_neg hn]
      have hdiv := ih (n / 10)
      have hlt : n / 10 < 10 ^ (d + 1) ↔ n < 10 ^ (d + 2) := by
        rw [Nat.div_lt_iff_lt_mul (by omega : 0 < 10)]
        constructor
        · intro h; calc n < 10 ^ (d + 1) * 10 := h
          _ = 10 ^ (d + 2) := by ring
        · intro h; calc n < 10 ^ (d + 2) := h
          _ = 10 ^ (d + 1) * 10 := by ring
      omega
  
/-- `stripTens` factors its nonzero argument as `c * 10 ^ k`. -/
theorem stripTens_mul : ∀ n, n ≠ 0 → (stripTens n).1 * 10 ^ (stripTens n).2 = n := by
  intro n
  induction n using Nat.strong_induction_on with
  | _ n ih =>
    intro hn
    rw [stripTens]
    split
    · next hcond =>
      have h10 : 10 ∣ n := Nat.dvd_of_mod_eq_zero hcond.1
      have hge : 10 ≤ n := Nat.le_of_dvd (Nat.pos_of_ne_zero hn) h10
      have hlt : n / 10 < n := Nat.div_lt_self (Nat.pos_of_ne_zero hn) (by omega)
      have hne : n / 10 ≠ 0 := by
        intro h0
        have := Nat.div_mul_cancel h10
        omega
      have := ih (n / 10) hlt hne
      have hmul : (stripTens (n / 10)).1 * 10 ^ ((stripTens (n / 10)).2 + 1) =
          (n / 10) * 10 := by
        rw [pow_succ, ← mul_assoc, this]
      simpa [hmul] using Nat.div_mul_cancel h10
    · simp

/-- The coefficient produced by `stripTens` is bounded by the input. -/
theorem stripTens_le (n : Nat) (hn : n ≠ 0) : (stripTens n).1 ≤ n := by
  conv_rhs => rw [← stripTens_mul n hn]
  exact Nat.le_mul_of_pos_right _ (Nat.pos_pow_of_pos _ (by omega))

/-- `decFix50` leaves a coefficient of at most 50 digits untouched. -/
theorem decFix50_small (c : Nat) (e : Int) (h : decDigits c ≤ 50) :
    decFix50 c e = (c, e) := by
  rw [decFix50]
  simp [h]

/-- Exactness of the embedded `Decimal` division at precision 50: for a
`getPrice` integer of at most 50 significant digits (every realistic
price; `uint256` values up to `10^50 - 1`), the (coefficient, exponent)
pair denotes exactly `raw / 10^18` as a rational number. -/
theorem decimalDivPow18_exact (raw : Nat) (h : raw < 10 ^ 50) :
    ((decimalDivPow18 raw).1 : ℚ) * (10 : ℚ) ^ (decimalDivPow18 raw).2 =
      (raw : ℚ) / 10 ^ 18 := by
  by_cases h0 : raw = 0
  · subst h0
    simp [decimalDivPow18]
  · have hfac := stripTens_mul raw h0
    have hc_le : (stripTens raw).1 ≤ raw := stripTens_le raw h0
    rw [decimalDivPow18, if_neg h0]
    by_cases hk : 18 ≤ (stripTens raw).2
    · rw [if_pos hk]
      have hcand_lt : (stripTens raw).1 * 10 ^ ((stripTens raw).2 - 18) < 10 ^ 50 := by
        have hdvd : (stripTens raw).1 * 10 ^ ((stripTens raw).2 - 18) * 10 ^ 18 = raw := by
          rw [mul_assoc, ← pow_add]
          have : (stripTens raw).2 - 18 + 18 = (stripTens raw).2 := by omega
          rw [this, hfac]
        have : (stripTens raw).1 * 10 ^ ((stripTens raw).2 - 18) ≤ raw := by
          calc (stripTens raw).1 * 10 ^ ((stripTens raw).2 - 18)
              ≤ (stripTens raw).1 * 10 ^ ((stripTens raw).2 - 18) * 10 ^ 18 :=
                Nat.le_mul_of_pos_right _ (Nat.pos_pow_of_pos _ (by omega))
          _ = raw := hdvd
        omega
      rw [decFix50_small _ _ ((decDigits_le_iff 49 _).mpr hcand_lt)]
      have hdvd : (stripTens raw).1 * 10 ^ ((stripTens raw).2 - 18) * 10 ^ 18 = raw := by
        rw [mul_assoc, ← pow_add]
        have : (stripTens raw).2 - 18 + 18 = (stripTens raw).2 := by omega
        rw [this, hfac]
      have hq : ((stripTens raw).1 * 10 ^ ((stripTens raw).2 - 18) * 10 ^ 18 : ℚ) =
          (raw : ℚ) := by exact_mod_cast congrArg (Nat.cast : Nat → ℚ) hdvd
      push_cast at hq
      rw [zpow_zero, mul_one]
      rw [← hq]
      field_simp
    · rw [if_neg hk]
      have hc_lt : (stripTens raw).1 < 10 ^ 50 := lt_of_le_of_lt hc_le h
      rw [decFix50_small _ _ ((decDigits_le_iff 49 _).mpr hc_lt)]
      have hq : ((stripTens raw).1 * 10 ^ (stripTens raw).2 : ℚ) = (raw : ℚ) := by
        exact_mod_cast congrArg (Nat.cast : Nat → ℚ) hfac
      push_cast at hq
      show ((stripTens raw).1 : ℚ) * (10 : ℚ) ^ (((stripTens raw).2 : ℤ) - 18) =
        (raw : ℚ) / 10 ^ 18
      rw [eq_div_iff (by positivity : ((10 : ℚ) ^ 18) ≠ 0)]
      rw [← zpow_natCast (10 : ℚ) 18, mul_assoc, ← zpow_add₀ (by norm_num : (10 : ℚ) ≠ 0)]
      have he : ((stripTens raw).2 : ℤ) - 18 + (18 : ℕ) = ((stripTens raw).2 : ℤ) := by
        push_cast
        ring
      rw [he, zpow_natCast, hq]

/-- C1. Every record the program emits — in either output mode both
modes render the same result list — carries exactly one of
`rate_zil_per_lst` and `error`, and a record whose `lst` field is absent
or null carries an error. -/
theorem C1_rate_error_exclusive (env : Env) (pools : List Pool) (r : ProbeResult)
    (hr : r ∈ processPools env pools) :
    (r.rate_zil_per_lst.isSome ∧ r.error = none ∨
      r.rate_zil_per_lst = none ∧ r.error.isSome) ∧
    ((r.lst = none ∨ r.lst = some none) → r.error.isSome) := by
  rcases List.mem_map.mp hr with ⟨p, _hp, rfl⟩
  unfold process_pool fetch_one
  cases hc : env.checksum p.proxy with
  | error e => simp
  | ok pcs =>
    dsimp only
    rcases hd : detect_lst_address env pcs with ⟨o, tr⟩
    cases o with
    | none => simp
    | some lst_addr =>
      dsimp only
      cases hpr : (fetch_price env pcs).1 with
      | none => simp
      | some d => simp

/-- C1 instantiated in the healthy world on a one-pool list. -/
theorem C1_witness :
    (let r : ProbeResult :=
      { pool := "P1", proxy := "0xA", lst := some (some "0x1"), symbol := some "stZIL",
        decimals := some 18, rate_zil_per_lst := some "1.5" }
    (r.rate_zil_per_lst.isSome ∧ r.error = none ∨
      r.rate_zil_per_lst = none ∧ r.error.isSome) ∧
    ((r.lst = none ∨ r.lst = some none) → r.error.isSome)) :=
  C1_rate_error_exclusive okEnv [⟨"P1", "0xA"⟩] _ (by
    simp [processPools, process_pool, fetch_one, okEnv, detect_lst_address, try_detect,
      fetch_price, fetch_token_meta, hexNat, hexDigitVal, decimalDivPow18_sample,
      decimalStr_sample])

/-- C2. LST detection tries `getLST()` first and uses its answer when it
is a non-zero address, normalised through the checksum routine (then
`lst()` is never called); when the `getLST()` attempt fails — raised,
zero address, unparseable — detection falls through to `lst()`; and when
both attempts fail the pool's record has `lst` null, type
`non-liquid-or-unknown`, the `No LST detected` error, and the call trace
shows no rate or metadata read for that pool. -/
theorem C2_lst_detection (env : Env) (proxy : String) :
    (∀ a v c, env.getLST proxy = .ok a → a ≠ "" → hexNat a = some v → v ≠ 0 →
      env.checksum a = .ok c → detect_lst_address env proxy = (some c, ["getLST"])) ∧
    (try_detect env env.getLST proxy = none →
      detect_lst_address env proxy = (try_detect env env.lst proxy, ["getLST", "lst"])) ∧
    (∀ pool_name pcs, env.checksum proxy = .ok pcs →
      try_detect env env.getLST pcs = none → try_detect env env.lst pcs = none →
      fetch_one env pool_name proxy =
        (.ok { pool := pool_name, proxy := pcs, lst := some none,
               type := some "non-liquid-or-unknown",
               error := some "No LST detected" },
         ["getLST", "lst"])) := by
  refine ⟨?_, ?_, ?_⟩
  · intro a v c h1 h2 h3 h4 h5
    unfold detect_lst_address try_detect
    rw [h1]
    simp [h2, h3, h4, h5]
  · intro h
    unfold detect_lst_address
    rw [h]
  · intro pool_name pcs hc h1 h2
    unfold fetch_one detect_lst_address
    rw [hc]
    dsimp only
    rw [h1, h2]

/-- C2 instantiated: a healthy `getLST()` and a proxy answering neither
method. -/
theorem C2_witness :
    detect_lst_address okEnv "0xA" = (some "0x1", ["getLST"]) ∧
    detect_lst_address deadEnv "0xB" = (try_detect deadEnv deadEnv.lst "0xB", ["getLST", "lst"]) ∧
    fetch_one deadEnv "P2" "0xB" =
      (.ok { pool := "P2", proxy := "0xB", lst := some none,
             type := some "non-liquid-or-unknown",
             error := some "No LST detected" },
       ["getLST", "lst"]) :=
  ⟨(C2_lst_detection okEnv "0xA").1 "0x1" 1 "0x1" rfl (by decide) rfl (by decide) rfl,
   (C2_lst_detection deadEnv "0xB").2.1 rfl,
   (C2_lst_detection deadEnv "0xB").2.2 "P2" "0xB" rfl rfl rfl⟩

/-- C3 (corrected). The bytes32-ABI retry of `symbol`/`name` happens
only when the string-ABI call failed (raised); its bytes value is
decoded by stripping trailing zero bytes and UTF-8 with replacement, so
`b"wZIL\x00..."` decodes to `"wZIL"`; `symbol` defaults to `"LST"` when
still unresolved (or empty) and `decimals` defaults to 18.  A string-ABI
call that *returns* an empty string is not retried: the empty symbol
falls straight through to the `"LST"` default, as witnessed by the call
trace containing no bytes32 read. -/
theorem C3_metadata_fallback (env : Env) (token : String) :
    (∀ e bs, env.symbol token = .error e → env.symbol_bytes32 token = .ok (some bs) →
      (fetch_token_meta env token).1.symbol =
        (if decode_bytes32 bs = "" then "LST" else decode_bytes32 bs)) ∧
    (∀ e bs, env.name token = .error e → env.name_bytes32 token = .ok (some bs) →
      (fetch_token_meta env token).1.name = decode_bytes32 bs) ∧
    (∀ e e', env.symbol token = .error e → env.symbol_bytes32 token = .error e' →
      (fetch_token_meta env token).1.symbol = "LST") ∧
    (∀ e, env.decimals token = .error e → (fetch_token_meta env token).1.decimals = 18) ∧
    (∀ s, env.symbol token = .ok s → s ≠ "" → (fetch_token_meta env token).1.symbol = s) ∧
    (env.symbol token = .ok "" → (fetch_token_meta env token).1.symbol = "LST") ∧
    (∀ s n, env.symbol token = .ok s → env.name token = .ok n →
      (fetch_token_meta env token).2 = ["symbol", "name", "decimals"]) ∧
    decode_bytes32 wzilBytes = "wZIL" := by
  refine ⟨?_, ?_, ?_, ?_, ?_, ?_, ?_, rfl⟩
  · intro e bs h1 h2
    unfold fetch_token_meta
    rw [h1, h2]
    simp
  · intro e bs h1 h2
    unfold fetch_token_meta
    rw [h1, h2]
    simp
  · intro e e' h1 h2
    unfold fetch_token_meta
    rw [h1, h2]
    simp
  · intro e h
    unfold fetch_token_meta
    rw [h]
  · intro s h1 h2
    unfold fetch_token_meta
    rw [h1]
    simp [h2]
  · intro h
    unfold fetch_token_meta
    rw [h]
    simp
  · intro s n h1 h2
    unfold fetch_token_meta
    rw [h1, h2]
    simp

/-- C3 counterexample. A token whose string-ABI `symbol()` *returns* the
empty string while the bytes32 ABI holds `b"wZIL\x00..."`: the claim
says an empty symbol is retried under the bytes32 ABI and decodes to
`"wZIL"`, but the code only retries when the call raised, so the symbol
ends up as the default `"LST"`. -/
theorem C3_counterexample :
    emptySymEnv.symbol "0xT" = .ok "" ∧
    emptySymEnv.symbol_bytes32 "0xT" = .ok (some wzilBytes) ∧
    decode_bytes32 wzilBytes = "wZIL" ∧
    (fetch_token_meta emptySymEnv "0xT").1.symbol = "LST" ∧
    (fetch_token_meta emptySymEnv "0xT").1.symbol ≠ "wZIL" :=
  ⟨rfl, rfl, rfl, rfl, by decide⟩

/-- C3 instantiated: a bytes32-only token, and the empty-string token. -/
theorem C3_witness :
    (fetch_token_meta b32Env "0xT").1.symbol =
      (if decode_bytes32 wzilBytes = "" then "LST" else decode_bytes32 wzilBytes) ∧
    (fetch_token_meta b32Env "0xT").1.name = decode_bytes32 wzilBytes ∧
    (fetch_token_meta b32Env "0xT").1.decimals = 18 ∧
    (fetch_token_meta emptySymEnv "0xT").1.symbol = "LST" ∧
    decode_bytes32 wzilBytes = "wZIL" :=
  ⟨(C3_metadata_fallback b32Env "0xT").1 "could not decode string" wzilBytes rfl rfl,
   (C3_metadata_fallback b32Env "0xT").2.1 "could not decode string" wzilBytes rfl rfl,
   (C3_metadata_fallback b32Env "0xT").2.2.2.1 "execution reverted" rfl,
   (C3_metadata_fallback emptySymEnv "0xT").2.2.2.2.2.1 rfl,
   (C3_metadata_fallback b32Env "0xT").2.2.2.2.2.2.2⟩

/-- C4 (corrected). Exit status 2 when the RPC endpoint is unreachable;
status 1 (an exception escaping `main`) when the explicitly given pools
file is missing or unreadable/malformed; `sys.exit(1)` when neither a
pools file nor proxies are given and autodiscovery finds nothing.  An
explicitly given pools file that parses — even to zero pools — lets the
run proceed, and it exits 0 in JSON mode or whenever every resolved name
is a string; in table mode a resolved entry with a truthy non-string
name crashes `print_table` (uncaught `TypeError`), terminating the
process with status 1. -/
theorem C4_exit_codes :
    (∀ sys args, sys.rpc_connected = false → mainOutcome sys args = .exited 2) ∧
    (∀ sys args path, sys.rpc_connected = true → args.pools_json = some path →
      sys.fs path = none → exitCode (mainOutcome sys args) = 1) ∧
    (∀ sys args path e, sys.rpc_connected = true → args.pools_json = some path →
      sys.fs path = some (.error e) → exitCode (mainOutcome sys args) = 1) ∧
    (∀ sys args, sys.rpc_connected = true → args.pools_json = none →
      args.proxies = [] → autodiscover_pools sys.fs = [] →
      mainOutcome sys args = .exited 1) ∧
    (∀ sys args path v ps, sys.rpc_connected = true → args.pools_json = some path →
      sys.fs path = some (.ok v) → load_pools_any v = .ok ps →
      (args.json = true ∨ ps.any (fun p => ! p.name.isStr) = false) →
      mainOutcome sys args = .completed ps ∧ exitCode (mainOutcome sys args) = 0) ∧
    (∀ sys args path v ps, sys.rpc_connected = true → args.pools_json = some path →
      sys.fs path = some (.ok v) → load_pools_any v = .ok ps →
      args.json = false → ps.any (fun p => ! p.name.isStr) = true →
      mainOutcome sys args = .uncaught "TypeError: pool name is not a string" ∧
        exitCode (mainOutcome sys args) = 1) := by
  refine ⟨?_, ?_, ?_, ?_, ?_, ?_⟩
  · intro sys args h
    simp [mainOutcome, h]
  · intro sys args path h1 h2 h3
    simp [mainOutcome, exitCode, h1, h2, h3]
  · intro sys args path e h1 h2 h3
    simp [mainOutcome, exitCode, h1, h2, h3]
  · intro sys args h1 h2 h3 h4
    simp [mainOutcome, h1, h2, h3, h4]
  · intro sys args path v ps h1 h2 h3 h4 h5
    rcases h5 with h5 | h5 <;>
      exact ⟨by simp [mainOutcome, renderOutcome, h1, h2, h3, h4, h5],
             by simp [mainOutcome, renderOutcome, exitCode, h1, h2, h3, h4, h5]⟩
  · intro sys args path v ps h1 h2 h3 h4 h5 h6
    constructor
    · simp [mainOutcome, renderOutcome, h1, h2, h3, h4, h5, h6]
    · simp [mainOutcome, renderOutcome, exitCode, h1, h2, h3, h4, h5, h6]

/-- C4 counterexample. With RPC up and an explicit pools file parsing to
the empty array, zero pools are resolved from any source, yet the
process runs to completion and exits 0, not 1. -/
theorem C4_counterexample :
    mainOutcome sysEmptyArr argsFile = .completed [] ∧
    exitCode (mainOutcome sysEmptyArr argsFile) ≠ 1 :=
  ⟨rfl, by decide⟩

/-- C4 instantiated on concrete worlds for each exit path, including the
table-mode crash on a parsed file whose entry is named `5`. -/
theorem C4_witness :
    mainOutcome sysDown argsFile = .exited 2 ∧
    exitCode (mainOutcome sysNoFile argsFile) = 1 ∧
    exitCode (mainOutcome sysBadFile argsFile) = 1 ∧
    mainOutcome sysNoFile argsNone = .exited 1 ∧
    (mainOutcome sysEmptyArr argsFile = .completed [] ∧
      exitCode (mainOutcome sysEmptyArr argsFile) = 0) ∧
    (mainOutcome sysBadName argsFileTable =
        .uncaught "TypeError: pool name is not a string" ∧
      exitCode (mainOutcome sysBadName argsFileTable) = 1) :=
  ⟨C4_exit_codes.1 sysDown argsFile rfl,
   C4_exit_codes.2.1 sysNoFile argsFile "pools.json" rfl rfl rfl,
   C4_exit_codes.2.2.1 sysBadFile argsFile "pools.json" "json.decoder.JSONDecodeError"
     rfl rfl rfl,
   C4_exit_codes.2.2.2.1 sysNoFile argsNone rfl rfl rfl rfl,
   C4_exit_codes.2.2.2.2.1 sysEmptyArr argsFile "pools.json" (JVal.arr []) []
     rfl rfl rfl rfl (Or.inl rfl),
   C4_exit_codes.2.2.2.2.2 sysBadName argsFileTable "pools.json"
     (JVal.arr [.obj [("name", .num 5), ("proxy", .str "0x1")]])
     [⟨.num 5, .str "0x1"⟩] rfl rfl rfl rfl rfl rfl⟩

/-- C6. When the LST was detected but `getPrice()` raises, the pool's
record is still emitted, carrying the metadata that was obtained and
`error: "getPrice failed"` in place of a rate, and the loop continues
with the remaining pools. -/
theorem C6_getprice_failure_nonfatal (env : Env) (p : Pool) (rest : List Pool)
    (pcs lst_addr e : String) (tr : List String)
    (hc : env.checksum p.proxy = .ok pcs)
    (hd : detect_lst_address env pcs = (some lst_addr, tr))
    (hp : env.getPrice pcs = .error e) :
    process_pool env p =
      { pool := p.name, proxy := pcs, lst := some (some lst_addr),
        symbol := some (fetch_token_meta env lst_addr).1.symbol,
        decimals := some (fetch_token_meta env lst_addr).1.decimals,
        error := some "getPrice failed" } ∧
    processPools env (p :: rest) = process_pool env p :: processPools env rest := by
  constructor
  · unfold process_pool fetch_one
    rw [hc]
    dsimp only
    rw [hd]
    dsimp only
    simp [fetch_price, hp]
  · simp [processPools]

/-- C6 instantiated: first pool's price read reverts, a second pool
follows. -/
theorem C6_witness :
    process_pool noPriceEnv ⟨"P1", "0xA"⟩ =
      { pool := "P1", proxy := "0xA", lst := some (some "0x1"),
        symbol := some (fetch_token_meta noPriceEnv "0x1").1.symbol,
        decimals := some (fetch_token_meta noPriceEnv "0x1").1.decimals,
        error := some "getPrice failed" } ∧
    processPools noPriceEnv (⟨"P1", "0xA"⟩ :: [⟨"P2", "0xB"⟩]) =
      process_pool noPriceEnv ⟨"P1", "0xA"⟩ :: processPools noPriceEnv [⟨"P2", "0xB"⟩] :=
  C6_getprice_failure_nonfatal noPriceEnv ⟨"P1", "0xA"⟩ [⟨"P2", "0xB"⟩]
    "0xA" "0x1" "execution reverted" ["getLST"] rfl rfl rfl

/-- C7. The rate is the `getPrice()` integer divided by `10^18` in
`Decimal` arithmetic — exact for any value of at most 50 significant
digits — and its string renderings at `raw = 1.5 * 10^18` are the
Decimal literal `"1.5"` (stored in the record, hence in JSON mode) and
`"1.500000"` (the table formatter). -/
theorem C7_rate_division_and_rendering (env : Env)
    (pool_name proxy pcs lst_addr : String) (tr : List String) (raw : Nat)
    (hc : env.checksum proxy = .ok pcs)
    (hd : detect_lst_address env pcs = (some lst_addr, tr))
    (hraw : env.getPrice pcs = .ok raw)
    (hlt : raw < 10 ^ 50) :
    (fetch_one env pool_name proxy).1 = .ok
      { pool := pool_name, proxy := pcs, lst := some (some lst_addr),
        symbol := some (fetch_token_meta env lst_addr).1.symbol,
        decimals := some (fetch_token_meta env lst_addr).1.decimals,
        rate_zil_per_lst :=
          some (decimalStr (decimalDivPow18 raw).1 (decimalDivPow18 raw).2) } ∧
    ((decimalDivPow18 raw).1 : ℚ) * (10 : ℚ) ^ (decimalDivPow18 raw).2 =
      (raw : ℚ) / 10 ^ 18 ∧
    decimalDivPow18 1500000000000000000 = (15, -1) ∧
    decimalStr 15 (-1) = "1.5" ∧
    format_rate (some "1.5") = "1.500000" := by
  refine ⟨?_, decimalDivPow18_exact raw hlt, decimalDivPow18_sample, decimalStr_sample,
    format_rate_sample⟩
  unfold fetch_one
  rw [hc]
  dsimp only
  rw [hd]
  dsimp only
  simp [fetch_price, hraw]

/-- C7 instantiated at the sample price in the healthy world. -/
theorem C7_witness :
    (fetch_one okEnv "P1" "0xA").1 = .ok
      { pool := "P1", proxy := "0xA", lst := some (some "0x1"),
        symbol := some (fetch_token_meta okEnv "0x1").1.symbol,
        decimals := some (fetch_token_meta okEnv "0x1").1.decimals,
        rate_zil_per_lst := some (decimalStr (decimalDivPow18 1500000000000000000).1
          (decimalDivPow18 1500000000000000000).2) } ∧
    ((decimalDivPow18 1500000000000000000).1 : ℚ) *
        (10 : ℚ) ^ (decimalDivPow18 1500000000000000000).2 =
      (1500000000000000000 : ℚ) / 10 ^ 18 ∧
    decimalDivPow18 1500000000000000000 = (15, -1) ∧
    decimalStr 15 (-1) = "1.5" ∧
    format_rate (some "1.5") = "1.500000" :=
  C7_rate_division_and_rendering okEnv "P1" "0xA" "0xA" "0x1" ["getLST"]
    1500000000000000000 rfl rfl rfl (by norm_num)

/-- `Nat.digitChar` only produces ASCII characters. -/
theorem digitChar_ascii (n : Nat) : (Nat.digitChar n).toNat ≤ 0x7F := by
  by_cases h : n < 16
  · interval_cases n <;> decide
  · unfold Nat.digitChar
    iterate 16 rw [if_neg (by omega)]
    decide

/-- Escaping one character neither adds nor removes non-ASCII
characters: the escape sequences are pure ASCII and a non-ASCII
character is passed through verbatim. -/
theorem pyJsonEscapeChar_filter (c : Char) :
    (pyJsonEscapeChar c).filter (fun d => 0x7F < d.toNat) =
      [c].filter (fun d => 0x7F < d.toNat) := by
  unfold pyJsonEscapeChar
  split_ifs with h1 h2 h3 h4 h5 h6 h7 h8
  · subst h1; rfl
  · subst h2; rfl
  · subst h3; rfl
  · subst h4; rfl
  · subst h5; rfl
  · subst h6; rfl
  · subst h7; rfl
  · have d1 := digitChar_ascii (c.toNat / 16)
    have d2 := digitChar_ascii (c.toNat % 16)
    have hc : (decide (0x7F < c.toNat) : Bool) = false := by
      simp only [decide_eq_false_iff_not]
      omega
    have hd1 : (decide (0x7F < (Nat.digitChar (c.toNat / 16)).toNat) : Bool) = false := by
      simp only [decide_eq_false_iff_not]
      omega
    have hd2 : (decide (0x7F < (Nat.digitChar (c.toNat % 16)).toNat) : Bool) = false := by
      simp only [decide_eq_false_iff_not]
      omega
    simp [List.filter_cons, hc, hd1, hd2]
  · rfl

/-- The whole-string version: escaping preserves the non-ASCII content
character for character. -/
theorem pyJsonEscape_filter (s : String) :
    (pyJsonEscape s).toList.filter (fun d => 0x7F < d.toNat) =
      s.toList.filter (fun d => 0x7F < d.toNat) := by
  show (s.toList.flatMap pyJsonEscapeChar).filter _ = _
  induction s.toList with
  | nil => rfl
  | cons c cs ih =>
    rw [List.flatMap_cons, List.filter_append, ih, pyJsonEscapeChar_filter]
    cases hp : (fun d : Char => decide (0x7F < d.toNat)) c <;>
      simp_all [List.filter_cons]

/-- C8. In JSON mode the program serialises exactly one record per
resolved pool, in processing order — the `i`-th record is the probe of
the `i`-th pool whether it errored or not — as the rendering of a JSON
array of that length, and string escaping leaves every non-ASCII
character literally in place. -/
theorem C8_json_output_shape (env : Env) (pools : List Pool) :
    (processPools env pools).length = pools.length ∧
    (∀ i : Nat, (processPools env pools)[i]? = pools[i]?.map (process_pool env)) ∧
    json_output (processPools env pools) =
      dumpJVal 0 (.arr ((processPools env pools).map resultToJVal)) ∧
    ((processPools env pools).map resultToJVal).length = pools.length ∧
    (∀ s : String, (pyJsonEscape s).toList.filter (fun d => 0x7F < d.toNat) =
      s.toList.filter (fun d => 0x7F < d.toNat)) := by
  refine ⟨?_, ?_, rfl, ?_, fun s => pyJsonEscape_filter s⟩
  · simp [processPools]
  · intro i
    simp [processPools, List.getElem?_map]
  · simp [processPools]

/-- C9 (corrected). Every record returned by `fetch_one` carries in
`proxy` exactly the output of the checksum routine on the pool's proxy
address; but a record appended by the main loop's exception handler —
e.g. when the proxy string cannot be checksummed at all — carries the
original un-normalised string instead. -/
theorem C9_proxy_checksummed (env : Env) (p : Pool) :
    (∀ r tr, fetch_one env p.name p.proxy = (.ok r, tr) →
      env.checksum p.proxy = .ok r.proxy) ∧
    (∀ e, (fetch_one env p.name p.proxy).1 = .error e →
      (process_pool env p).proxy = p.proxy) := by
  constructor
  · intro r tr h
    unfold fetch_one at h
    cases hc : env.checksum p.proxy with
    | error e =>
      rw [hc] at h
      simp at h
    | ok pcs =>
      rw [hc] at h
      dsimp only at h
      rcases hd : detect_lst_address env pcs with ⟨o, tr1⟩
      rw [hd] at h
      cases o with
      | none =>
        simp only [Prod.mk.injEq, Except.ok.injEq] at h
        rw [← h.1]
      | some lst_addr =>
        dsimp only at h
        cases hpr : (fetch_price env pcs).1 with
        | none =>
          rw [hpr] at h
          simp only [Prod.mk.injEq, Except.ok.injEq] at h
          rw [← h.1]
        | some d =>
          rw [hpr] at h
          simp only [Prod.mk.injEq, Except.ok.injEq] at h
          rw [← h.1]
  · intro e h
    unfold process_pool
    rw [h]

/-- C9 counterexample. A pool whose proxy `"zzz"` cannot be checksummed
still yields an emitted record, and that record's `proxy` field is the
raw string, not a checksummed form (none exists). -/
theorem C9_counterexample :
    (process_pool badChecksumEnv ⟨"P1", "zzz"⟩).proxy = "zzz" ∧
    ¬ ∃ cs, badChecksumEnv.checksum "zzz" = .ok cs ∧
        (process_pool badChecksumEnv ⟨"P1", "zzz"⟩).proxy = cs := by
  refine ⟨rfl, ?_⟩
  rintro ⟨cs, hcs, _⟩
  simp [badChecksumEnv] at hcs

/-- C9 instantiated: a successful probe and a failing checksum. -/
theorem C9_witness :
    okEnv.checksum "0xA" = .ok "0xA" ∧
    (process_pool badChecksumEnv ⟨"P1", "zzz"⟩).proxy = "zzz" :=
  ⟨(C9_proxy_checksummed okEnv ⟨"P1", "0xA"⟩).1
      { pool := "P1", proxy := "0xA", lst := some (some "0x1"), symbol := some "stZIL",
        decimals := some 18, rate_zil_per_lst := some "1.5" }
      ["getLST", "getPrice", "symbol", "name", "decimals"]
      (by
        simp [fetch_one, okEnv, detect_lst_address, try_detect, fetch_price,
          fetch_token_meta, hexNat, hexDigitVal, decimalDivPow18_sample, decimalStr_sample]),
   (C9_proxy_checksummed badChecksumEnv ⟨"P1", "zzz"⟩).2 "could not checksum" rfl⟩

/-- C10. An exception escaping `fetch_one` (for example a proxy string
the checksum routine rejects) is caught by the main loop: the emitted
record holds the pool name, the original un-normalised proxy string and
the exception message as `error`, and the remaining pools are processed
unchanged. -/
theorem C10_loop_exception_record (env : Env) (p : Pool) (rest : List Pool) (e : String)
    (he : (fetch_one env p.name p.proxy).1 = .error e) :
    process_pool env p = { pool := p.name, proxy := p.proxy, error := some e } ∧
    processPools env (p :: rest) =
      { pool := p.name, proxy := p.proxy, error := some e } :: processPools env rest ∧
    (∀ e', env.checksum p.proxy = .error e' → (fetch_one env p.name p.proxy).1 = .error e') := by
  have h1 : process_pool env p =
      { pool := p.name, proxy := p.proxy, error := some e } := by
    unfold process_pool
    rw [he]
  refine ⟨h1, ?_, ?_⟩
  · simp [processPools, h1]
  · intro e' hce
    unfold fetch_one
    rw [hce]

/-- C10 instantiated: the checksum rejects `"zzz"`, the second pool is
still processed. -/
theorem C10_witness :
    process_pool badChecksumEnv ⟨"P1", "zzz"⟩ =
      { pool := "P1", proxy := "zzz", error := some "could not checksum" } ∧
    processPools badChecksumEnv (⟨"P1", "zzz"⟩ :: [⟨"P2", "0xB"⟩]) =
      { pool := "P1", proxy := "zzz", error := some "could not checksum" } ::
        processPools badChecksumEnv [⟨"P2", "0xB"⟩] ∧
    (∀ e', badChecksumEnv.checksum "zzz" = .error e' →
      (fetch_one badChecksumEnv "P1" "zzz").1 = .error e') :=
  C10_loop_exception_record badChecksumEnv ⟨"P1", "zzz"⟩ [⟨"P2", "0xB"⟩]
    "could not checksum" rfl
